import Mathlib

/-!
Shallow embedding of the ink! smart contract in src/fundraiser/lib.rs
(a crowdfunding / escrow ledger).

Modelling conventions:
* `FundingId` is the contract's `u32` id type; ids are kept in `Nat` and the
  allocator's `checked_add` is modelled with an explicit bound `U32_MOD = 2^32`.
* `Balance` is the chain's `u128`; amounts are kept in `Nat` and the
  overflow-checked addition in `fund` is modelled with the bound
  `U128_MOD = 2^128`.
* `ink_storage::Mapping` is modelled as a function `FundingId → Option α`
  with `insert` / `remove` as pointwise update.
* The ambient execution environment (`self.env().caller()`,
  `self.env().transferred_value()`, `self.env().balance()`, the outcome of
  `self.env().transfer(..)`) is threaded in as explicit parameters, as the
  design notes prescribe for a testable port.
* Every panic site of the contract (`expect`, `assert!`, `assert_eq!`,
  `unwrap()` on `None`, `panic!`) aborts the call and reverts all state, so
  each message returns `Except Error Fundraiser`: on `.error` the caller keeps
  the pre-call state.  Each distinct panic site gets its own `Error`
  constructor, named after the spec's error taxonomy where the spec names it;
  the bare `unwrap()` on a missing funding entry (line 205 of the source) is
  its own constructor `UnwrapNone`, since its panic is not any of the
  spec's named errors.
-/

abbrev FundingId := Nat
abbrev Balance := Nat
abbrev AccountId := Nat

def U32_MOD : Nat := 2 ^ 32
def U128_MOD : Nat := 2 ^ 128

/-- `u32::checked_add` on values below `U32_MOD`. -/
def checked_add_u32 (a b : Nat) : Option Nat :=
  if a + b < U32_MOD then some (a + b) else none

/-- `u128::checked_add` on values below `U128_MOD`. -/
def checked_add_u128 (a b : Nat) : Option Nat :=
  if a + b < U128_MOD then some (a + b) else none

/-- `ink_storage::Mapping FundingId α`. -/
abbrev Map (α : Type) := FundingId → Option α

namespace Map

def empty {α : Type} : Map α := fun _ => none

def insert {α : Type} (m : Map α) (k : FundingId) (v : α) : Map α :=
  fun j => if j = k then some v else m j

def remove {α : Type} (m : Map α) (k : FundingId) : Map α :=
  fun j => if j = k then none else m j

end Map

/-- The `Transaction` storage struct: terms of one funding campaign.
`callee` is the account that registered it (the withdrawal beneficiary),
`expected_value` the target amount. -/
structure Transaction where
  callee : AccountId
  expected_value : Balance
  deriving Repr, DecidableEq

/-- The `Transactions` storage struct: the packed list of all issued ids and
the monotonically increasing allocator counter. -/
structure Transactions where
  transactions : List FundingId
  next_id : FundingId
  deriving Repr, DecidableEq

/-- The `Fundraiser` contract storage. -/
structure Fundraiser where
  name : String
  owner : AccountId
  transaction_list : Transactions
  transactions : Map Transaction
  current_funding : Map Balance

/-- One `Error` constructor per distinct panic site of the contract. -/
inductive Error where
  /-- `expect(WRONG_TRANSACTION_ID)` in `ensure_transaction_exists`. -/
  | UnknownCampaign
  /-- `assert_eq!(transaction.callee, caller_id)` in `ensure_transaction_owner`. -/
  | NotBeneficiary
  /-- `assert!(current_funding < expected_value)` in `ensure_funding_is_not_exceed`. -/
  | AlreadyFullyFunded
  /-- `assert!(current_funding >= expected_value)` in `ensure_funding_is_full`. -/
  | NotFullyFunded
  /-- a bare `unwrap()` on a `None` value. -/
  | UnwrapNone
  /-- `assert!(funding <= self.env().balance())` in `withdraw`. -/
  | InsufficientContractBalance
  /-- `panic!` after a failed `self.env().transfer(..)` in `withdraw`. -/
  | TransferFailed
  /-- `expect("Transaction ids exhausted.")` in `create_a_funding`. -/
  | AllocatorExhausted
  /-- `expect("Funding exhausted.")` in `fund`. -/
  | ArithmeticOverflow
  deriving Repr, DecidableEq

namespace Fundraiser

/-- The constructor `new`: `initialize_contract` leaves both mappings empty
and the id list empty with `next_id = 0`. -/
def new (name_value : String) (owner_value : AccountId) : Fundraiser :=
  { name := name_value
    owner := owner_value
    transaction_list := { transactions := [], next_id := 0 }
    transactions := Map.empty
    current_funding := Map.empty }

/-- `ensure_transaction_exists`: panic with `WRONG_TRANSACTION_ID` if the
transaction `fund_id` does not exist. -/
def ensure_transaction_exists (s : Fundraiser) (fund_id : FundingId) :
    Except Error Unit :=
  match s.transactions fund_id with
  | some _ => .ok ()
  | none => .error .UnknownCampaign

/-- `ensure_transaction_owner`: `unwrap()` the transaction, then
`assert_eq!(transaction.callee, caller_id)`. -/
def ensure_transaction_owner (s : Fundraiser) (fund_id : FundingId)
    (caller_id : AccountId) : Except Error Unit :=
  match s.transactions fund_id with
  | none => .error .UnwrapNone
  | some transaction =>
    if transaction.callee = caller_id then .ok () else .error .NotBeneficiary

/-- `ensure_funding_is_not_exceed`: `unwrap()` the transaction; if a funding
entry exists, `assert!(current_funding < expected_value)`; if no entry
exists the assertion is skipped. -/
def ensure_funding_is_not_exceed (s : Fundraiser) (fund_id : FundingId) :
    Except Error Unit :=
  match s.transactions fund_id with
  | none => .error .UnwrapNone
  | some transaction =>
    match s.current_funding fund_id with
    | none => .ok ()
    | some current_funding =>
      if current_funding < transaction.expected_value then .ok ()
      else .error .AlreadyFullyFunded

/-- `ensure_funding_is_full`: `unwrap()` the transaction, `unwrap()` the
funding entry (panics on a missing entry), then
`assert!(current_funding >= expected_value)`. -/
def ensure_funding_is_full (s : Fundraiser) (fund_id : FundingId) :
    Except Error Unit :=
  match s.transactions fund_id with
  | none => .error .UnwrapNone
  | some transaction =>
    match s.current_funding fund_id with
    | none => .error .UnwrapNone
    | some current_funding =>
      if current_funding ≥ transaction.expected_value then .ok ()
      else .error .NotFullyFunded

/-- `create_a_funding` (register): allocate the next id with
`checked_add(1).expect("Transaction ids exhausted.")`, store the
`Transaction { callee: caller, expected_value }`, push the id on the packed
list, return the id. -/
def create_a_funding (s : Fundraiser) (caller : AccountId)
    (expected_value : Balance) : Except Error (FundingId × Fundraiser) :=
  let fund_id := s.transaction_list.next_id
  match checked_add_u32 fund_id 1 with
  | none => .error .AllocatorExhausted
  | some new_next =>
    let transaction : Transaction :=
      { callee := caller, expected_value := expected_value }
    let tl : Transactions :=
      { transactions := s.transaction_list.transactions ++ [fund_id]
        next_id := new_next }
    let txs := Map.insert s.transactions fund_id transaction
    .ok (fund_id, { s with transaction_list := tl, transactions := txs })

/-- `get_funding`: read a transaction by its id. -/
def get_funding (s : Fundraiser) (fund_id : FundingId) : Option Transaction :=
  s.transactions fund_id

/-- `get_funding_status`: read a transaction's current funding. -/
def get_funding_status (s : Fundraiser) (fund_id : FundingId) : Option Balance :=
  s.current_funding fund_id

/-- `fund` (contribute): `value` is the transferred value attached to the
call.  Checks existence and the not-exceed guard, then accumulates with
`checked_add(value).expect("Funding exhausted.")` when an entry exists
(plain `value` otherwise), and re-inserts via `remove` + `insert`. -/
def fund (s : Fundraiser) (caller : AccountId) (value : Balance)
    (fund_id : FundingId) : Except Error Fundraiser :=
  match ensure_transaction_exists s fund_id with
  | .error e => .error e
  | .ok _ =>
    match ensure_funding_is_not_exceed s fund_id with
    | .error e => .error e
    | .ok _ =>
      match s.current_funding fund_id with
      | none =>
        let cf := Map.insert (Map.remove s.current_funding fund_id) fund_id value
        .ok { s with current_funding := cf }
      | some funding =>
        match checked_add_u128 funding value with
        | none => .error .ArithmeticOverflow
        | some f =>
          let cf := Map.insert (Map.remove s.current_funding fund_id) fund_id f
          .ok { s with current_funding := cf }

/-- `withdraw`: check existence, ownership and fullness, `unwrap()` the
funding entry, `assert!(funding <= balance)`, attempt the transfer
(`transfer_ok` is the outcome of `self.env().transfer`; on failure the call
panics), then remove only the `transactions` entry.  `contract_balance` is
`self.env().balance()`. -/
def withdraw (s : Fundraiser) (caller : AccountId) (contract_balance : Balance)
    (transfer_ok : Bool) (fund_id : FundingId) : Except Error Fundraiser :=
  match ensure_transaction_exists s fund_id with
  | .error e => .error e
  | .ok _ =>
    match ensure_transaction_owner s fund_id caller with
    | .error e => .error e
    | .ok _ =>
      match ensure_funding_is_full s fund_id with
      | .error e => .error e
      | .ok _ =>
        match s.current_funding fund_id with
        | none => .error .UnwrapNone
        | some funding =>
          if funding ≤ contract_balance then
            if transfer_ok then
              .ok { s with transactions := Map.remove s.transactions fund_id }
            else .error .TransferFailed
          else .error .InsufficientContractBalance

end Fundraiser

/-- One externally observable call to the contract, with the environment
data (caller, attached value, contract balance, transfer outcome) that the
hosting runtime supplies for that call. -/
inductive Op where
  | create (caller : AccountId) (expected_value : Balance)
  | fundOp (caller : AccountId) (value : Balance) (fund_id : FundingId)
  | withdrawOp (caller : AccountId) (contract_balance : Balance)
      (transfer_ok : Bool) (fund_id : FundingId)
  deriving Repr, DecidableEq

/-- Apply one call; a panicking (`.error`) call reverts, leaving the state
unchanged. -/
def step (s : Fundraiser) : Op → Fundraiser
  | .create c ev =>
    match s.create_a_funding c ev with
    | .ok (_, t) => t
    | .error _ => s
  | .fundOp c v id =>
    match s.fund c v id with
    | .ok t => t
    | .error _ => s
  | .withdrawOp c b tr id =>
    match s.withdraw c b tr id with
    | .ok t => t
    | .error _ => s

/-- Run a sequence of calls. -/
def exec (s : Fundraiser) (ops : List Op) : Fundraiser := ops.foldl step s

/-- The ids returned by the successful `create_a_funding` calls of a
sequence, in call order. -/
def issued (s : Fundraiser) : List Op → List FundingId
  | [] => []
  | op :: ops =>
    match op with
    | .create c ev =>
      match s.create_a_funding c ev with
      | .ok (i, t) => i :: issued t ops
      | .error _ => issued s ops
    | _ => issued (step s op) ops

/-- Observe only the error of a call outcome (states contain functions, so
whole-outcome equality is not decidable; the error part is). -/
def errOf {α : Type} : Except Error α → Option Error
  | .error e => some e
  | .ok _ => none

/-- State invariant preserved by every call: every id in the packed list is
below the allocator counter, and both mappings only hold issued ids. -/
structure ContractInv (s : Fundraiser) : Prop where
  mem_lt : ∀ i ∈ s.transaction_list.transactions, i < s.transaction_list.next_id
  tx_dom : ∀ i, (s.transactions i).isSome = true →
    i ∈ s.transaction_list.transactions
  cf_dom : ∀ i, (s.current_funding i).isSome = true →
    i ∈ s.transaction_list.transactions

/- ------------------------------------------------------------- -/
/- Theorems.                                                     -/
/- ------------------------------------------------------------- -/

@[simp] theorem Map.insert_self {α : Type} (m : Map α) (k : FundingId) (v : α) :
    Map.insert m k v k = some v := by simp [Map.insert]

theorem Map.insert_other {α : Type} (m : Map α) (k j : FundingId) (v : α)
    (h : j ≠ k) : Map.insert m k v j = m j := by simp [Map.insert, h]

@[simp] theorem Map.remove_self {α : Type} (m : Map α) (k : FundingId) :
    Map.remove m k k = none := by simp [Map.remove]

theorem Map.remove_other {α : Type} (m : Map α) (k j : FundingId)
    (h : j ≠ k) : Map.remove m k j = m j := by simp [Map.remove, h]

theorem errOf_eq_none {α : Type} (x : Except Error α) (h : x.isOk = true) :
    errOf x = none := by
  cases x <;> simp_all [errOf, Except.isOk, Except.toBool]

/- ------------------------------------------------------------------ -/
/- Shape lemmas: what each message does on success, and when it fails. -/
/- ------------------------------------------------------------------ -/

theorem checked_add_u32_some {a b x : Nat} (h : checked_add_u32 a b = some x) :
    x = a + b ∧ a + b < U32_MOD := by
  unfold checked_add_u32 at h
  split at h <;> simp_all

theorem checked_add_u128_some {a b x : Nat} (h : checked_add_u128 a b = some x) :
    x = a + b ∧ a + b < U128_MOD := by
  unfold checked_add_u128 at h
  split at h <;> simp_all

namespace Fundraiser

theorem create_a_funding_ok {s : Fundraiser} {c : AccountId} {ev : Balance}
    {i : FundingId} {t : Fundraiser}
    (h : s.create_a_funding c ev = .ok (i, t)) :
    i = s.transaction_list.next_id ∧
    s.transaction_list.next_id + 1 < U32_MOD ∧
    t.name = s.name ∧ t.owner = s.owner ∧
    t.transaction_list.transactions = s.transaction_list.transactions ++ [i] ∧
    t.transaction_list.next_id = i + 1 ∧
    t.transactions = Map.insert s.transactions i
      { callee := c, expected_value := ev } ∧
    t.current_funding = s.current_funding := by
  simp only [create_a_funding] at h
  split at h
  · exact absurd h (by simp)
  next new_next heq =>
    obtain ⟨h1, h2⟩ := checked_add_u32_some heq
    simp only [Except.ok.injEq, Prod.mk.injEq] at h
    obtain ⟨hi, ht⟩ := h
    subst hi
    subst ht
    refine ⟨rfl, h2, rfl, rfl, rfl, ?_, rfl, rfl⟩
    simpa using h1

theorem create_a_funding_exhausted {s : Fundraiser} {c : AccountId}
    {ev : Balance} (h : ¬ s.transaction_list.next_id + 1 < U32_MOD) :
    s.create_a_funding c ev = .error .AllocatorExhausted := by
  unfold create_a_funding checked_add_u32
  simp [h]

theorem fund_unknown {s : Fundraiser} {c : AccountId} {v : Balance}
    {id : FundingId} (h : s.transactions id = none) :
    s.fund c v id = .error .UnknownCampaign := by
  simp [fund, ensure_transaction_exists, h]

theorem fund_already_full {s : Fundraiser} {c : AccountId} {v : Balance}
    {id : FundingId} {tx : Transaction} {w : Balance}
    (hreg : s.transactions id = some tx)
    (hcf : s.current_funding id = some w)
    (hge : tx.expected_value ≤ w) :
    s.fund c v id = .error .AlreadyFullyFunded := by
  have hnlt : ¬ w < tx.expected_value := Nat.not_lt.mpr hge
  simp [fund, ensure_transaction_exists, ensure_funding_is_not_exceed,
    hreg, hcf, hnlt]

theorem fund_ok_absent {s : Fundraiser} {c : AccountId} {v : Balance}
    {id : FundingId} {tx : Transaction}
    (hreg : s.transactions id = some tx)
    (hcf : s.current_funding id = none) :
    s.fund c v id = .ok { s with current_funding := Map.insert (Map.remove s.current_funding id) id v } := by
  simp [fund, ensure_transaction_exists, ensure_funding_is_not_exceed,
    hreg, hcf]

theorem fund_ok_present {s : Fundraiser} {c : AccountId} {v : Balance}
    {id : FundingId} {tx : Transaction} {w : Balance}
    (hreg : s.transactions id = some tx)
    (hcf : s.current_funding id = some w)
    (hlt : w < tx.expected_value)
    (hadd : w + v < U128_MOD) :
    s.fund c v id = .ok { s with current_funding := Map.insert (Map.remove s.current_funding id) id (w + v) } := by
  simp [fund, ensure_transaction_exists, ensure_funding_is_not_exceed,
    hreg, hcf, hlt, checked_add_u128, hadd]

theorem fund_overflow {s : Fundraiser} {c : AccountId} {v : Balance}
    {id : FundingId} {tx : Transaction} {w : Balance}
    (hreg : s.transactions id = some tx)
    (hcf : s.current_funding id = some w)
    (hlt : w < tx.expected_value)
    (hadd : ¬ w + v < U128_MOD) :
    s.fund c v id = .error .ArithmeticOverflow := by
  simp [fund, ensure_transaction_exists, ensure_funding_is_not_exceed,
    hreg, hcf, hlt, checked_add_u128, hadd]

theorem fund_ok_shape {s : Fundraiser} {c : AccountId} {v : Balance}
    {id : FundingId} {t : Fundraiser} (h : s.fund c v id = .ok t) :
    (s.transactions id).isSome = true ∧
    t.name = s.name ∧ t.owner = s.owner ∧
    t.transaction_list = s.transaction_list ∧
    t.transactions = s.transactions ∧
    ∃ f, t.current_funding = Map.insert (Map.remove s.current_funding id) id f := by
  rcases hreg : s.transactions id with _ | tx
  · rw [fund_unknown hreg] at h
    exact absurd h (by simp)
  rcases hcf : s.current_funding id with _ | w
  · rw [fund_ok_absent hreg hcf] at h
    simp only [Except.ok.injEq] at h
    subst h
    exact ⟨by simp [hreg], rfl, rfl, rfl, rfl, v, rfl⟩
  rcases Nat.lt_or_ge w tx.expected_value with hlt | hge
  · by_cases hadd : w + v < U128_MOD
    · rw [fund_ok_present hreg hcf hlt hadd] at h
      simp only [Except.ok.injEq] at h
      subst h
      exact ⟨by simp [hreg], rfl, rfl, rfl, rfl, w + v, rfl⟩
    · rw [fund_overflow hreg hcf hlt hadd] at h
      exact absurd h (by simp)
  · rw [fund_already_full hreg hcf hge] at h
    exact absurd h (by simp)

theorem withdraw_unknown {s : Fundraiser} {c : AccountId} {b : Balance}
    {tr : Bool} {id : FundingId} (h : s.transactions id = none) :
    s.withdraw c b tr id = .error .UnknownCampaign := by
  simp [withdraw, ensure_transaction_exists, h]

theorem withdraw_not_owner {s : Fundraiser} {c : AccountId} {b : Balance}
    {tr : Bool} {id : FundingId} {tx : Transaction}
    (hreg : s.transactions id = some tx)
    (hne : tx.callee ≠ c) :
    s.withdraw c b tr id = .error .NotBeneficiary := by
  simp [withdraw, ensure_transaction_exists, ensure_transaction_owner,
    hreg, hne]

theorem withdraw_no_entry {s : Fundraiser} {c : AccountId} {b : Balance}
    {tr : Bool} {id : FundingId} {tx : Transaction}
    (hreg : s.transactions id = some tx)
    (hown : tx.callee = c)
    (hcf : s.current_funding id = none) :
    s.withdraw c b tr id = .error .UnwrapNone := by
  simp [withdraw, ensure_transaction_exists, ensure_transaction_owner,
    ensure_funding_is_full, hreg, hown, hcf]

theorem withdraw_not_full {s : Fundraiser} {c : AccountId} {b : Balance}
    {tr : Bool} {id : FundingId} {tx : Transaction} {w : Balance}
    (hreg : s.transactions id = some tx)
    (hown : tx.callee = c)
    (hcf : s.current_funding id = some w)
    (hlt : w < tx.expected_value) :
    s.withdraw c b tr id = .error .NotFullyFunded := by
  have hnge : ¬ w ≥ tx.expected_value := Nat.not_le.mpr hlt
  simp [withdraw, ensure_transaction_exists, ensure_transaction_owner,
    ensure_funding_is_full, hreg, hown, hcf, hnge]

theorem withdraw_ok_full {s : Fundraiser} {c : AccountId} {b : Balance}
    {id : FundingId} {tx : Transaction} {w : Balance}
    (hreg : s.transactions id = some tx)
    (hown : tx.callee = c)
    (hcf : s.current_funding id = some w)
    (hge : w ≥ tx.expected_value)
    (hbal : w ≤ b) :
    s.withdraw c b true id = .ok { s with transactions := Map.remove s.transactions id } := by
  simp [withdraw, ensure_transaction_exists, ensure_transaction_owner,
    ensure_funding_is_full, hreg, hown, hcf, hge, hbal]

theorem withdraw_ok_shape {s : Fundraiser} {c : AccountId} {b : Balance}
    {tr : Bool} {id : FundingId} {t : Fundraiser}
    (h : s.withdraw c b tr id = .ok t) :
    (∃ tx, s.transactions id = some tx ∧ tx.callee = c ∧
      ∃ w, s.current_funding id = some w ∧ tx.expected_value ≤ w ∧ w ≤ b) ∧
    tr = true ∧
    t.name = s.name ∧ t.owner = s.owner ∧
    t.transaction_list = s.transaction_list ∧
    t.transactions = Map.remove s.transactions id ∧
    t.current_funding = s.current_funding := by
  rcases hreg : s.transactions id with _ | tx
  · rw [withdraw_unknown hreg] at h
    exact absurd h (by simp)
  by_cases hown : tx.callee = c
  case neg => rw [withdraw_not_owner hreg hown] at h; exact absurd h (by simp)
  rcases hcf : s.current_funding id with _ | w
  · rw [withdraw_no_entry hreg hown hcf] at h
    exact absurd h (by simp)
  rcases Nat.lt_or_ge w tx.expected_value with hlt | hge
  · rw [withdraw_not_full hreg hown hcf hlt] at h
    exact absurd h (by simp)
  by_cases hbal : w ≤ b
  case neg =>
    have : s.withdraw c b tr id = .error .InsufficientContractBalance := by
      simp [withdraw, ensure_transaction_exists, ensure_transaction_owner,
        ensure_funding_is_full, hreg, hown, hcf, hge, hbal]
    rw [this] at h
    exact absurd h (by simp)
  cases tr with
  | false =>
    have hfail : s.withdraw c b false id = .error .TransferFailed := by
      simp [withdraw, ensure_transaction_exists, ensure_transaction_owner,
        ensure_funding_is_full, hreg, hown, hcf, hge, hbal]
    rw [hfail] at h
    exact absurd h (by simp)
  | true =>
    rw [withdraw_ok_full hreg hown hcf hge hbal] at h
    simp only [Except.ok.injEq] at h
    subst h
    exact ⟨⟨tx, rfl, hown, w, rfl, hge, hbal⟩, rfl, rfl, rfl, rfl, rfl, rfl⟩

end Fundraiser

/- ------------------------------------------------------------- -/
/- Relating `step` to the messages it dispatches.                -/
/- ------------------------------------------------------------- -/

theorem step_create_ok {s : Fundraiser} {c : AccountId} {ev : Balance}
    {i : FundingId} {t : Fundraiser} (h : s.create_a_funding c ev = .ok (i, t)) :
    step s (.create c ev) = t := by simp [step, h]

theorem step_create_err {s : Fundraiser} {c : AccountId} {ev : Balance}
    {e : Error} (h : s.create_a_funding c ev = .error e) :
    step s (.create c ev) = s := by simp [step, h]

theorem step_fund_ok {s : Fundraiser} {c : AccountId} {v : Balance}
    {id : FundingId} {t : Fundraiser} (h : s.fund c v id = .ok t) :
    step s (.fundOp c v id) = t := by simp [step, h]

theorem step_fund_err {s : Fundraiser} {c : AccountId} {v : Balance}
    {id : FundingId} {e : Error} (h : s.fund c v id = .error e) :
    step s (.fundOp c v id) = s := by simp [step, h]

theorem step_withdraw_ok {s : Fundraiser} {c : AccountId} {b : Balance}
    {tr : Bool} {id : FundingId} {t : Fundraiser}
    (h : s.withdraw c b tr id = .ok t) :
    step s (.withdrawOp c b tr id) = t := by simp [step, h]

theorem step_withdraw_err {s : Fundraiser} {c : AccountId} {b : Balance}
    {tr : Bool} {id : FundingId} {e : Error}
    (h : s.withdraw c b tr id = .error e) :
    step s (.withdrawOp c b tr id) = s := by simp [step, h]

theorem step_fund_transaction_list (s : Fundraiser) (c : AccountId)
    (v : Balance) (id : FundingId) :
    (step s (.fundOp c v id)).transaction_list = s.transaction_list := by
  cases h : s.fund c v id with
  | error e => rw [step_fund_err h]
  | ok t => rw [step_fund_ok h]; exact (Fundraiser.fund_ok_shape h).2.2.2.1

theorem step_withdraw_transaction_list (s : Fundraiser) (c : AccountId)
    (b : Balance) (tr : Bool) (id : FundingId) :
    (step s (.withdrawOp c b tr id)).transaction_list = s.transaction_list := by
  cases h : s.withdraw c b tr id with
  | error e => rw [step_withdraw_err h]
  | ok t => rw [step_withdraw_ok h]; exact (Fundraiser.withdraw_ok_shape h).2.2.2.2.1

theorem next_id_le_step (s : Fundraiser) (op : Op) :
    s.transaction_list.next_id ≤ (step s op).transaction_list.next_id := by
  cases op with
  | create c ev =>
    cases h : s.create_a_funding c ev with
    | error e => rw [step_create_err h]
    | ok r =>
      obtain ⟨i, t⟩ := r
      rw [step_create_ok h]
      obtain ⟨hi, _, _, _, _, hnext, _⟩ := Fundraiser.create_a_funding_ok h
      subst hi
      rw [hnext]
      exact Nat.le_succ _
  | fundOp c v id => rw [step_fund_transaction_list]
  | withdrawOp c b tr id => rw [step_withdraw_transaction_list]

/- ------------------------------------------------------------- -/
/- The reachable-state invariant.                                -/
/- ------------------------------------------------------------- -/

theorem inv_new (n : String) (o : AccountId) : ContractInv (Fundraiser.new n o) := by
  constructor <;> simp [Fundraiser.new, Map.empty]

theorem inv_step {s : Fundraiser} (hs : ContractInv s) (op : Op) : ContractInv (step s op) := by
  cases op with
  | create c ev =>
    cases h : s.create_a_funding c ev with
    | error e => rw [step_create_err h]; exact hs
    | ok r =>
      obtain ⟨i, t⟩ := r
      rw [step_create_ok h]
      obtain ⟨hi, _, _, _, hlist, hnext, htx, hcf⟩ :=
        Fundraiser.create_a_funding_ok h
      constructor
      · intro j hj
        rw [hlist] at hj
        rw [hnext]
        rcases List.mem_append.mp hj with hmem | hsing
        · rw [hi]
          exact Nat.lt_succ_of_lt (hs.mem_lt j hmem)
        · simp only [List.mem_singleton] at hsing
          subst hsing
          exact Nat.lt_succ_self j
      · intro j hj
        rw [htx] at hj
        rw [hlist]
        by_cases hji : j = i
        · subst hji
          exact List.mem_append.mpr (Or.inr (by simp))
        · rw [Map.insert_other _ _ _ _ hji] at hj
          exact List.mem_append.mpr (Or.inl (hs.tx_dom j hj))
      · intro j hj
        rw [hcf] at hj
        rw [hlist]
        exact List.mem_append.mpr (Or.inl (hs.cf_dom j hj))
  | fundOp c v id =>
    cases h : s.fund c v id with
    | error e => rw [step_fund_err h]; exact hs
    | ok t =>
      rw [step_fund_ok h]
      obtain ⟨hsome, _, _, hlist, htx, f, hcf⟩ := Fundraiser.fund_ok_shape h
      constructor
      · intro j hj
        rw [hlist] at hj ⊢
        exact hs.mem_lt j hj
      · intro j hj
        rw [htx] at hj
        rw [hlist]
        exact hs.tx_dom j hj
      · intro j hj
        rw [hcf] at hj
        rw [hlist]
        by_cases hji : j = id
        · subst hji
          exact hs.tx_dom j hsome
        · rw [Map.insert_other _ _ _ _ hji, Map.remove_other _ _ _ hji] at hj
          exact hs.cf_dom j hj
  | withdrawOp c b tr id =>
    cases h : s.withdraw c b tr id with
    | error e => rw [step_withdraw_err h]; exact hs
    | ok t =>
      rw [step_withdraw_ok h]
      obtain ⟨_, _, _, _, hlist, htx, hcf⟩ := Fundraiser.withdraw_ok_shape h
      constructor
      · intro j hj
        rw [hlist] at hj ⊢
        exact hs.mem_lt j hj
      · intro j hj
        rw [htx] at hj
        rw [hlist]
        by_cases hji : j = id
        · subst hji
          simp at hj
        · rw [Map.remove_other _ _ _ hji] at hj
          exact hs.tx_dom j hj
      · intro j hj
        rw [hcf] at hj
        rw [hlist]
        exact hs.cf_dom j hj

theorem inv_exec (ops : List Op) : ∀ s : Fundraiser, ContractInv s → ContractInv (exec s ops) := by
  induction ops with
  | nil => intro s hs; exact hs
  | cons op ops ih =>
    intro s hs
    exact ih (step s op) (inv_step hs op)

/-- In a `ContractInv` state the freshly allocatable id is absent from both maps. -/
theorem inv_fresh {s : Fundraiser} (hs : ContractInv s) :
    s.transactions s.transaction_list.next_id = none ∧
    s.current_funding s.transaction_list.next_id = none := by
  constructor
  · cases h : s.transactions s.transaction_list.next_id with
    | none => rfl
    | some tx =>
      have hmem := hs.tx_dom s.transaction_list.next_id (by rw [h]; rfl)
      exact absurd (hs.mem_lt _ hmem) (Nat.lt_irrefl _)
  · cases h : s.current_funding s.transaction_list.next_id with
    | none => rfl
    | some w =>
      have hmem := hs.cf_dom s.transaction_list.next_id (by rw [h]; rfl)
      exact absurd (hs.mem_lt _ hmem) (Nat.lt_irrefl _)

/- ------------------------------------------------------------- -/
/- Trace lemmas: the packed id list and the issued ids.          -/
/- ------------------------------------------------------------- -/

theorem exec_cons (s : Fundraiser) (op : Op) (ops : List Op) :
    exec s (op :: ops) = exec (step s op) ops := rfl

theorem issued_fund (s : Fundraiser) (c : AccountId) (v : Balance)
    (id : FundingId) (ops : List Op) :
    issued s (.fundOp c v id :: ops) = issued (step s (.fundOp c v id)) ops := rfl

theorem issued_withdraw (s : Fundraiser) (c : AccountId) (b : Balance)
    (tr : Bool) (id : FundingId) (ops : List Op) :
    issued s (.withdrawOp c b tr id :: ops) =
      issued (step s (.withdrawOp c b tr id)) ops := rfl

theorem issued_create_ok {s : Fundraiser} {c : AccountId} {ev : Balance}
    {i : FundingId} {t : Fundraiser} (ops : List Op)
    (h : s.create_a_funding c ev = .ok (i, t)) :
    issued s (.create c ev :: ops) = i :: issued t ops := by
  simp [issued, h]

theorem issued_create_err {s : Fundraiser} {c : AccountId} {ev : Balance}
    {e : Error} (ops : List Op) (h : s.create_a_funding c ev = .error e) :
    issued s (.create c ev :: ops) = issued s ops := by
  simp [issued, h]

theorem exec_packed_list (ops : List Op) : ∀ s : Fundraiser,
    (exec s ops).transaction_list.transactions =
      s.transaction_list.transactions ++ issued s ops := by
  induction ops with
  | nil => intro s; simp [exec, issued]
  | cons op ops ih =>
    intro s
    rw [exec_cons]
    cases op with
    | create c ev =>
      cases h : s.create_a_funding c ev with
      | error e =>
        rw [step_create_err h, ih s, issued_create_err ops h]
      | ok r =>
        obtain ⟨i, t⟩ := r
        rw [step_create_ok h, ih t, issued_create_ok ops h]
        obtain ⟨_, _, _, _, hlist, _, _, _⟩ := Fundraiser.create_a_funding_ok h
        rw [hlist, List.append_assoc]
        rfl
    | fundOp c v id =>
      rw [ih (step s (.fundOp c v id)), issued_fund,
        step_fund_transaction_list]
    | withdrawOp c b tr id =>
      rw [ih (step s (.withdrawOp c b tr id)), issued_withdraw,
        step_withdraw_transaction_list]

theorem issued_sorted (ops : List Op) : ∀ s : Fundraiser,
    (issued s ops).Pairwise (· < ·) ∧
    ∀ i ∈ issued s ops, s.transaction_list.next_id ≤ i := by
  induction ops with
  | nil => intro s; simp [issued]
  | cons op ops ih =>
    intro s
    cases op with
    | create c ev =>
      cases h : s.create_a_funding c ev with
      | error e =>
        rw [issued_create_err ops h]
        exact ih s
      | ok r =>
        obtain ⟨i, t⟩ := r
        rw [issued_create_ok ops h]
        obtain ⟨hi, _, _, _, _, hnext, _⟩ := Fundraiser.create_a_funding_ok h
        obtain ⟨ihp, ihb⟩ := ih t
        constructor
        · refine List.pairwise_cons.mpr ⟨fun j hj => ?_, ihp⟩
          have hb := ihb j hj
          rw [hnext] at hb
          exact Nat.lt_of_succ_le hb
        · intro j hj
          rcases List.mem_cons.mp hj with hji | hmem
          · subst hji
            rw [hi]
          · have hb := ihb j hmem
            rw [hnext] at hb
            rw [← hi]
            exact Nat.le_of_succ_le hb
    | fundOp c v id =>
      rw [issued_fund]
      obtain ⟨ihp, ihb⟩ := ih (step s (.fundOp c v id))
      exact ⟨ihp, fun j hj =>
        Nat.le_trans (next_id_le_step s (.fundOp c v id)) (ihb j hj)⟩
    | withdrawOp c b tr id =>
      rw [issued_withdraw]
      obtain ⟨ihp, ihb⟩ := ih (step s (.withdrawOp c b tr id))
      exact ⟨ihp, fun j hj =>
        Nat.le_trans (next_id_le_step s (.withdrawOp c b tr id)) (ihb j hj)⟩

theorem create_a_funding_of_room {s : Fundraiser} {c : AccountId}
    {ev : Balance} (h : s.transaction_list.next_id + 1 < U32_MOD) :
    s.create_a_funding c ev = .ok (s.transaction_list.next_id,
      { s with
        transaction_list :=
          { transactions :=
              s.transaction_list.transactions ++ [s.transaction_list.next_id]
            next_id := s.transaction_list.next_id + 1 }
        transactions := Map.insert s.transactions s.transaction_list.next_id
          { callee := c, expected_value := ev } }) := by
  unfold Fundraiser.create_a_funding checked_add_u32
  simp [h]

/- ------------------------------------------------------------- -/
/- Claims.                                                       -/
/- ------------------------------------------------------------- -/

/-- C1 counterexample: on the reachable state obtained by registering a
campaign with target 100 and contributing 100, `withdraw` by the
beneficiary succeeds, yet a subsequent `get_funding_status` still returns
`some 100` rather than absent: the contribution-ledger entry is not
removed, contradicting the claim. -/
theorem C1_counterexample :
    ((exec (Fundraiser.new "f" 0) [.create 1 100, .fundOp 2 100 0]).withdraw
      1 100 true 0).isOk = true ∧
    (exec (Fundraiser.new "f" 0)
      [.create 1 100, .fundOp 2 100 0, .withdrawOp 1 100 true 0]).get_funding_status
      0 = some 100 ∧
    (exec (Fundraiser.new "f" 0)
      [.create 1 100, .fundOp 2 100 0, .withdrawOp 1 100 true 0]).get_funding_status
      0 ≠ none := by decide

/-- C1 (amended): after a successful `withdraw(id)`, `get_campaign(id)`
returns absent and any further `contribute(id, _)` or `withdraw(id)` fails
with `UnknownCampaign`; but only the Campaign record is removed — the
contribution-ledger entry is retained, so `get_funding_status(id)` still
returns the accumulated amount present at withdrawal time (in particular it
is not absent). -/
theorem C1_withdraw_retires_campaign (s : Fundraiser) (c : AccountId)
    (b : Balance) (tr : Bool) (id : FundingId)
    (h : (s.withdraw c b tr id).isOk = true) :
    (step s (.withdrawOp c b tr id)).get_funding id = none ∧
    (step s (.withdrawOp c b tr id)).get_funding_status id =
      s.get_funding_status id ∧
    (s.get_funding_status id).isSome = true ∧
    (∀ c2 v, (step s (.withdrawOp c b tr id)).fund c2 v id =
      .error .UnknownCampaign) ∧
    (∀ c3 b3 tr3, (step s (.withdrawOp c b tr id)).withdraw c3 b3 tr3 id =
      .error .UnknownCampaign) := by
  cases hw : s.withdraw c b tr id with
  | error e => rw [hw] at h; simp [Except.isOk, Except.toBool] at h
  | ok t =>
    rw [step_withdraw_ok hw]
    obtain ⟨⟨tx, hreg, hown, w, hcf, hge, hbal⟩, htr, _, _, hlist, htx, hcfe⟩ :=
      Fundraiser.withdraw_ok_shape hw
    have hnone : t.transactions id = none := by rw [htx]; simp
    refine ⟨hnone, ?_, ?_, ?_, ?_⟩
    · show t.current_funding id = s.current_funding id
      rw [hcfe]
    · show (s.current_funding id).isSome = true
      rw [hcf]; rfl
    · intro c2 v; exact Fundraiser.fund_unknown hnone
    · intro c3 b3 tr3; exact Fundraiser.withdraw_unknown hnone

/-- C1 witness: the amended theorem applied to the concrete trace of the
counterexample state. -/
theorem C1_witness :
    (step (exec (Fundraiser.new "f" 0) [.create 1 100, .fundOp 2 100 0])
      (.withdrawOp 1 100 true 0)).get_funding 0 = none ∧
    (step (exec (Fundraiser.new "f" 0) [.create 1 100, .fundOp 2 100 0])
      (.withdrawOp 1 100 true 0)).get_funding_status 0 = some 100 := by
  obtain ⟨h1, h2, h3, h4, h5⟩ := C1_withdraw_retires_campaign
    (exec (Fundraiser.new "f" 0) [.create 1 100, .fundOp 2 100 0])
    1 100 true 0 (by decide)
  refine ⟨h1, ?_⟩
  rw [h2]
  decide

/-- C2 counterexample: the state reached by `register(target 100)`,
`contribute 40`, `contribute 70` has a registered, never-withdrawn campaign
whose accumulated amount 110 exceeds its target 100, and the over-target
contribution was accepted, not rejected — refuting the invariant as
claimed. -/
theorem C2_counterexample :
    ((exec (Fundraiser.new "f" 0) [.create 1 100, .fundOp 2 40 0]).fund
      3 70 0).isOk = true ∧
    (exec (Fundraiser.new "f" 0)
      [.create 1 100, .fundOp 2 40 0, .fundOp 3 70 0]).get_funding 0 =
      some { callee := 1, expected_value := 100 } ∧
    (exec (Fundraiser.new "f" 0)
      [.create 1 100, .fundOp 2 40 0, .fundOp 3 70 0]).get_funding_status 0 =
      some 110 ∧
    100 < 110 := by decide

/-- C2 (amended): `accumulated_amount ≤ target_amount` does not hold in all
reachable states — a contribution accepted while `accumulated < target` may
record a total above target.  What does hold: whenever a registered
campaign's ledger entry is at or above its target, every further
contribution to it is rejected with `AlreadyFullyFunded`, and no operation
whatsoever changes that entry again. -/
theorem C2_funded_campaign_frozen (s : Fundraiser) (id : FundingId)
    (tx : Transaction) (w : Balance)
    (hreg : s.transactions id = some tx)
    (hcf : s.current_funding id = some w)
    (hge : tx.expected_value ≤ w) :
    (∀ c v, s.fund c v id = .error .AlreadyFullyFunded) ∧
    ∀ op, (step s op).current_funding id = some w := by
  constructor
  · intro c v; exact Fundraiser.fund_already_full hreg hcf hge
  · intro op
    cases op with
    | create c ev =>
      cases h : s.create_a_funding c ev with
      | error e => rw [step_create_err h]; exact hcf
      | ok r =>
        obtain ⟨i, t⟩ := r
        rw [step_create_ok h]
        obtain ⟨_, _, _, _, _, _, _, hc⟩ := Fundraiser.create_a_funding_ok h
        rw [hc]; exact hcf
    | fundOp c v id2 =>
      by_cases hid : id2 = id
      · subst hid
        rw [step_fund_err (Fundraiser.fund_already_full hreg hcf hge)]
        exact hcf
      · cases h : s.fund c v id2 with
        | error e => rw [step_fund_err h]; exact hcf
        | ok t =>
          rw [step_fund_ok h]
          obtain ⟨_, _, _, _, _, f, hc⟩ := Fundraiser.fund_ok_shape h
          rw [hc, Map.insert_other _ _ _ _ (fun hh => hid hh.symm),
            Map.remove_other _ _ _ (fun hh => hid hh.symm)]
          exact hcf
    | withdrawOp c b tr id2 =>
      cases h : s.withdraw c b tr id2 with
      | error e => rw [step_withdraw_err h]; exact hcf
      | ok t =>
        rw [step_withdraw_ok h]
        obtain ⟨_, _, _, _, _, _, hc⟩ := Fundraiser.withdraw_ok_shape h
        rw [hc]; exact hcf

/-- C2 witness: the amended theorem applied to the reachable over-funded
state of the counterexample (entry 110 ≥ target 100). -/
theorem C2_witness :
    errOf ((exec (Fundraiser.new "f" 0)
      [.create 1 100, .fundOp 2 40 0, .fundOp 3 70 0]).fund 4 1 0) =
      some .AlreadyFullyFunded ∧
    (step (exec (Fundraiser.new "f" 0)
      [.create 1 100, .fundOp 2 40 0, .fundOp 3 70 0])
      (.fundOp 4 1 0)).current_funding 0 = some 110 := by
  obtain ⟨h1, h2⟩ := C2_funded_campaign_frozen
    (exec (Fundraiser.new "f" 0) [.create 1 100, .fundOp 2 40 0, .fundOp 3 70 0])
    0 { callee := 1, expected_value := 100 } 110
    (by decide) (by decide) (by decide)
  exact ⟨by rw [h1 4 1]; rfl, h2 (.fundOp 4 1 0)⟩

/-- C3: for a registered campaign whose accumulated amount (absent entry
counting as zero) is strictly below its target at check time, `fund`
succeeds for any non-overflowing attached value — even one pushing the
total strictly above the target — and records the full post-addition
total. -/
theorem C3_contribute_below_target (s : Fundraiser) (id : FundingId)
    (tx : Transaction) (c : AccountId) (v : Balance)
    (hreg : s.transactions id = some tx)
    (hlt : (s.current_funding id).getD 0 < tx.expected_value)
    (hadd : (s.current_funding id).getD 0 + v < U128_MOD) :
    (s.fund c v id).isOk = true ∧
    (step s (.fundOp c v id)).get_funding_status id =
      some ((s.current_funding id).getD 0 + v) := by
  rcases hcf : s.current_funding id with _ | w
  · rw [hcf] at hlt hadd
    have hok := @Fundraiser.fund_ok_absent s c v id tx hreg hcf
    refine ⟨by rw [hok]; rfl, ?_⟩
    rw [step_fund_ok hok]
    simp [Fundraiser.get_funding_status]
  · rw [hcf] at hlt hadd
    simp only [Option.getD_some] at hlt hadd
    have hok := @Fundraiser.fund_ok_present s c v id tx w hreg hcf hlt hadd
    refine ⟨by rw [hok]; rfl, ?_⟩
    rw [step_fund_ok hok]
    simp [Fundraiser.get_funding_status]

/-- C3 witness: over-target contribution accepted on the concrete
scenario-1 state (40 accumulated, target 100, contribute 70 → 110). -/
theorem C3_witness :
    ((exec (Fundraiser.new "f" 0) [.create 1 100, .fundOp 2 40 0]).fund
      3 70 0).isOk = true ∧
    (step (exec (Fundraiser.new "f" 0) [.create 1 100, .fundOp 2 40 0])
      (.fundOp 3 70 0)).get_funding_status 0 = some 110 := by
  obtain ⟨h1, h2⟩ := C3_contribute_below_target
    (exec (Fundraiser.new "f" 0) [.create 1 100, .fundOp 2 40 0])
    0 { callee := 1, expected_value := 100 } 3 70
    (by decide) (by decide) (by decide)
  exact ⟨h1, h2⟩

/-- C4 counterexample: a campaign registered with target 0 that has
received no contributions has accumulated-amount 0 ≥ target 0, yet
`fund` succeeds and records the value — the fully-funded check is skipped
entirely when no contribution entry exists, contradicting the claim. -/
theorem C4_counterexample :
    (exec (Fundraiser.new "f" 0) [.create 1 0]).get_funding 0 =
      some { callee := 1, expected_value := 0 } ∧
    (exec (Fundraiser.new "f" 0) [.create 1 0]).get_funding_status 0 = none ∧
    ((exec (Fundraiser.new "f" 0) [.create 1 0]).fund 2 5 0).isOk = true ∧
    (exec (Fundraiser.new "f" 0) [.create 1 0, .fundOp 2 5 0]).get_funding_status
      0 = some 5 := by decide

/-- C4 (amended): `fund` fails with `AlreadyFullyFunded` (leaving all state
unchanged) exactly when a contribution entry exists and its value is at
least the target; when no entry exists the check is skipped, so a campaign
registered with target 0 and no contributions accepts contributions. -/
theorem C4_already_funded_rejected (s : Fundraiser) (id : FundingId)
    (tx : Transaction) (w : Balance) (c : AccountId) (v : Balance)
    (hreg : s.transactions id = some tx)
    (hcf : s.current_funding id = some w)
    (hge : tx.expected_value ≤ w) :
    s.fund c v id = .error .AlreadyFullyFunded ∧
    step s (.fundOp c v id) = s := by
  have hf := @Fundraiser.fund_already_full s c v id tx w hreg hcf hge
  exact ⟨hf, step_fund_err hf⟩

/-- C4 witness: the amended theorem applied to a campaign at exactly its
target (10 accumulated, target 10). -/
theorem C4_witness :
    errOf ((exec (Fundraiser.new "f" 0) [.create 1 10, .fundOp 2 10 0]).fund
      3 1 0) = some .AlreadyFullyFunded ∧
    (step (exec (Fundraiser.new "f" 0) [.create 1 10, .fundOp 2 10 0])
      (.fundOp 3 1 0)).get_funding_status 0 = some 10 := by
  obtain ⟨h1, h2⟩ := C4_already_funded_rejected
    (exec (Fundraiser.new "f" 0) [.create 1 10, .fundOp 2 10 0])
    0 { callee := 1, expected_value := 10 } 10 3 1
    (by decide) (by decide) (by decide)
  refine ⟨by rw [h1]; rfl, ?_⟩
  rw [h2]
  decide

/-- C5 counterexample: a registered campaign with target 50, beneficiary 1
and no contribution entry (absence counts as zero, and 0 < 50) makes
`withdraw` by the beneficiary fail — but with the bare unwrap-on-`None`
panic of `ensure_funding_is_full`, not with `NotFullyFunded`; and with a
non-beneficiary caller the failure is `NotBeneficiary` even though the
campaign is under-funded. -/
theorem C5_counterexample :
    (exec (Fundraiser.new "f" 0) [.create 1 50]).get_funding 0 =
      some { callee := 1, expected_value := 50 } ∧
    (exec (Fundraiser.new "f" 0) [.create 1 50]).get_funding_status 0 = none ∧
    errOf ((exec (Fundraiser.new "f" 0) [.create 1 50]).withdraw 1 100 true 0) =
      some .UnwrapNone ∧
    errOf ((exec (Fundraiser.new "f" 0) [.create 1 50]).withdraw 1 100 true 0) ≠
      some .NotFullyFunded ∧
    errOf ((exec (Fundraiser.new "f" 0) [.create 1 50, .fundOp 2 10 0]).withdraw
      9 100 true 0) = some .NotBeneficiary := by decide

/-- C5 (amended): when the campaign is registered, the caller is its
beneficiary and a contribution entry exists with value strictly below the
target, `withdraw` fails with `NotFullyFunded` and mutates no state; when
no contribution entry exists the call still fails without mutating state,
but via the unwrap-on-`None` panic rather than `NotFullyFunded`. -/
theorem C5_premature_withdraw_rejected (s : Fundraiser) (id : FundingId)
    (tx : Transaction) (w : Balance) (c : AccountId) (b : Balance) (tr : Bool)
    (hreg : s.transactions id = some tx)
    (hown : tx.callee = c)
    (hcf : s.current_funding id = some w)
    (hlt : w < tx.expected_value) :
    s.withdraw c b tr id = .error .NotFullyFunded ∧
    step s (.withdrawOp c b tr id) = s := by
  have hf := @Fundraiser.withdraw_not_full s c b tr id tx w hreg hown hcf hlt
  exact ⟨hf, step_withdraw_err hf⟩

/-- C5 witness: the amended theorem applied to scenario 3 with a 10/50
partial contribution. -/
theorem C5_witness :
    errOf ((exec (Fundraiser.new "f" 0) [.create 1 50, .fundOp 2 10 0]).withdraw
      1 100 true 0) = some .NotFullyFunded ∧
    (step (exec (Fundraiser.new "f" 0) [.create 1 50, .fundOp 2 10 0])
      (.withdrawOp 1 100 true 0)).get_funding 0 =
      some { callee := 1, expected_value := 50 } := by
  obtain ⟨h1, h2⟩ := C5_premature_withdraw_rejected
    (exec (Fundraiser.new "f" 0) [.create 1 50, .fundOp 2 10 0])
    0 { callee := 1, expected_value := 50 } 10 1 100 true
    (by decide) (by decide) (by decide) (by decide)
  refine ⟨by rw [h1]; rfl, ?_⟩
  rw [h2]
  decide

/-- C6: for a registered campaign, `withdraw` by any caller other than the
campaign's registered beneficiary fails with `NotBeneficiary` regardless of
funding status, mutating nothing; and the beneficiary check is the sole
authorization: any caller whose `withdraw` on this campaign succeeds is the
beneficiary. -/
theorem C6_withdraw_authorization (s : Fundraiser) (id : FundingId)
    (tx : Transaction) (c : AccountId) (b : Balance) (tr : Bool)
    (hreg : s.transactions id = some tx)
    (hne : c ≠ tx.callee) :
    s.withdraw c b tr id = .error .NotBeneficiary ∧
    step s (.withdrawOp c b tr id) = s ∧
    ∀ c2 b2 tr2, (s.withdraw c2 b2 tr2 id).isOk = true → c2 = tx.callee := by
  have hf := @Fundraiser.withdraw_not_owner s c b tr id tx hreg
    (fun hh => hne hh.symm)
  refine ⟨hf, step_withdraw_err hf, ?_⟩
  intro c2 b2 tr2 h2
  cases hw : s.withdraw c2 b2 tr2 id with
  | error e => rw [hw] at h2; simp [Except.isOk, Except.toBool] at h2
  | ok t =>
    obtain ⟨⟨tx2, hreg2, hown2, _⟩, _⟩ := Fundraiser.withdraw_ok_shape hw
    rw [hreg] at hreg2
    cases hreg2
    exact hown2.symm

/-- C6 witness: caller 9 ≠ beneficiary 1 is rejected on a fully funded
campaign, state untouched; the beneficiary itself can withdraw. -/
theorem C6_witness :
    errOf ((exec (Fundraiser.new "f" 0) [.create 1 50, .fundOp 2 50 0]).withdraw
      9 100 true 0) = some .NotBeneficiary ∧
    (step (exec (Fundraiser.new "f" 0) [.create 1 50, .fundOp 2 50 0])
      (.withdrawOp 9 100 true 0)).get_funding_status 0 = some 50 := by
  obtain ⟨h1, h2, h3⟩ := C6_withdraw_authorization
    (exec (Fundraiser.new "f" 0) [.create 1 50, .fundOp 2 50 0])
    0 { callee := 1, expected_value := 50 } 9 100 true
    (by decide) (by decide)
  refine ⟨by rw [h1]; rfl, ?_⟩
  rw [h2]
  decide

/-- C7: the ids returned by the successful `create_a_funding` calls of any
call sequence from a fresh contract are pairwise strictly increasing in
call order (hence never repeated, withdrawals notwithstanding); and a state
whose allocator stands at the maximum `u32` makes the next
`create_a_funding` fail with `AllocatorExhausted`, leaving the whole state
— in particular the counter — unchanged. -/
theorem C7_monotonic_ids (n : String) (o : AccountId) (ops : List Op)
    (s : Fundraiser) (c : AccountId) (ev : Balance)
    (hmax : s.transaction_list.next_id = U32_MOD - 1) :
    (issued (Fundraiser.new n o) ops).Pairwise (· < ·) ∧
    s.create_a_funding c ev = .error .AllocatorExhausted ∧
    step s (.create c ev) = s := by
  have hids : ¬ s.transaction_list.next_id + 1 < U32_MOD := by
    rw [hmax, Nat.sub_add_cancel (by decide : 1 ≤ U32_MOD)]
    exact Nat.lt_irrefl _
  have hfail := @Fundraiser.create_a_funding_exhausted s c ev hids
  exact ⟨(issued_sorted ops (Fundraiser.new n o)).1, hfail,
    step_create_err hfail⟩

/-- C7 witness: the theorem applied to a trace interleaving a withdrawal
between two registrations, and to an explicit state whose counter stands at
the maximum id. -/
theorem C7_witness :
    (issued (Fundraiser.new "f" 0)
      [.create 1 10, .fundOp 2 10 0, .withdrawOp 1 10 true 0,
        .create 2 20]).Pairwise (· < ·) ∧
    errOf ((Fundraiser.mk "g" 7
      { transactions := [], next_id := U32_MOD - 1 }
      Map.empty Map.empty).create_a_funding 3 5) = some .AllocatorExhausted := by
  obtain ⟨h1, h2, h3⟩ := C7_monotonic_ids "f" 0
    [.create 1 10, .fundOp 2 10 0, .withdrawOp 1 10 true 0, .create 2 20]
    (Fundraiser.mk "g" 7 { transactions := [], next_id := U32_MOD - 1 }
      Map.empty Map.empty)
    3 5 rfl
  exact ⟨h1, by rw [h2]; rfl⟩

/-- C8 counterexample: a campaign with target 1 can (in one contribution,
while its entry is absent) reach accumulated `2^128 - 1`; a further
contribution of 1 then satisfies the claim's premise — the sum exceeds the
maximum representable `Balance` — yet the call fails with
`AlreadyFullyFunded`, not `ArithmeticOverflow`, because the fully-funded
check runs before the checked addition. -/
theorem C8_counterexample :
    (exec (Fundraiser.new "f" 0)
      [.create 1 1, .fundOp 2 (U128_MOD - 1) 0]).get_funding 0 =
      some { callee := 1, expected_value := 1 } ∧
    (exec (Fundraiser.new "f" 0)
      [.create 1 1, .fundOp 2 (U128_MOD - 1) 0]).get_funding_status 0 =
      some (U128_MOD - 1) ∧
    U128_MOD ≤ (U128_MOD - 1) + 1 ∧
    errOf ((exec (Fundraiser.new "f" 0)
      [.create 1 1, .fundOp 2 (U128_MOD - 1) 0]).fund 3 1 0) =
      some .AlreadyFullyFunded ∧
    errOf ((exec (Fundraiser.new "f" 0)
      [.create 1 1, .fundOp 2 (U128_MOD - 1) 0]).fund 3 1 0) ≠
      some .ArithmeticOverflow := by decide

/-- C8 (amended): for a registered campaign whose existing entry is still
strictly below its target (so the fully-funded check passes), a
contribution whose checked addition would exceed the maximum representable
`Balance` fails with `ArithmeticOverflow` and leaves all state — in
particular the accumulated amount — unchanged; the addition is checked,
never saturating or wrapping.  (When the entry is already at or above
target, `AlreadyFullyFunded` takes precedence.) -/
theorem C8_overflow_checked (s : Fundraiser) (id : FundingId)
    (tx : Transaction) (w : Balance) (c : AccountId) (v : Balance)
    (hreg : s.transactions id = some tx)
    (hcf : s.current_funding id = some w)
    (hlt : w < tx.expected_value)
    (hov : U128_MOD ≤ w + v) :
    s.fund c v id = .error .ArithmeticOverflow ∧
    step s (.fundOp c v id) = s := by
  have hf := @Fundraiser.fund_overflow s c v id tx w hreg hcf hlt (Nat.not_lt.mpr hov)
  exact ⟨hf, step_fund_err hf⟩

/-- C8 witness: overflow attempt on a campaign holding `2^128 - 2` with
target `2^128 - 1`: contributing 5 aborts with `ArithmeticOverflow` and the
entry is untouched. -/
theorem C8_witness :
    errOf ((exec (Fundraiser.new "f" 0)
      [.create 1 (U128_MOD - 1), .fundOp 2 (U128_MOD - 2) 0]).fund 3 5 0) =
      some .ArithmeticOverflow ∧
    (step (exec (Fundraiser.new "f" 0)
      [.create 1 (U128_MOD - 1), .fundOp 2 (U128_MOD - 2) 0])
      (.fundOp 3 5 0)).get_funding_status 0 = some (U128_MOD - 2) := by
  obtain ⟨h1, h2⟩ := C8_overflow_checked
    (exec (Fundraiser.new "f" 0)
      [.create 1 (U128_MOD - 1), .fundOp 2 (U128_MOD - 2) 0])
    0 { callee := 1, expected_value := U128_MOD - 1 } (U128_MOD - 2) 3 5
    (by decide) (by decide) (by decide) (by decide)
  refine ⟨by rw [h1]; rfl, ?_⟩
  rw [h2]
  decide

/-- C9: on any reachable state with allocator room, `create_a_funding`
allocates exactly the current `next_id`, stores the Campaign record with
the authenticated caller as beneficiary and the given target (any value,
zero included), returns that id, bumps the counter, and creates no
contribution entry: `get_funding_status` on the fresh id is absent. -/
theorem C9_register (n : String) (o : AccountId) (ops : List Op)
    (c : AccountId) (ev : Balance)
    (hroom : (exec (Fundraiser.new n o) ops).transaction_list.next_id + 1 <
      U32_MOD) :
    ∃ t, (exec (Fundraiser.new n o) ops).create_a_funding c ev =
        .ok ((exec (Fundraiser.new n o) ops).transaction_list.next_id, t) ∧
      t.get_funding ((exec (Fundraiser.new n o) ops).transaction_list.next_id) =
        some { callee := c, expected_value := ev } ∧
      t.get_funding_status
        ((exec (Fundraiser.new n o) ops).transaction_list.next_id) = none ∧
      t.transaction_list.next_id =
        (exec (Fundraiser.new n o) ops).transaction_list.next_id + 1 := by
  obtain ⟨htxf, hcff⟩ := inv_fresh (inv_exec ops _ (inv_new n o))
  refine ⟨_, create_a_funding_of_room hroom, ?_, ?_, rfl⟩
  · simp [Fundraiser.get_funding]
  · simp [Fundraiser.get_funding_status, hcff]

/-- C9 witness: the theorem applied after one prior registration, with a
target of zero. -/
theorem C9_witness :
    ∃ t, (exec (Fundraiser.new "f" 0) [.create 1 10]).create_a_funding 2 0 =
        .ok ((exec (Fundraiser.new "f" 0)
          [.create 1 10]).transaction_list.next_id, t) ∧
      t.get_funding ((exec (Fundraiser.new "f" 0)
        [.create 1 10]).transaction_list.next_id) =
        some { callee := 2, expected_value := 0 } ∧
      t.get_funding_status ((exec (Fundraiser.new "f" 0)
        [.create 1 10]).transaction_list.next_id) = none ∧
      t.transaction_list.next_id =
        (exec (Fundraiser.new "f" 0) [.create 1 10]).transaction_list.next_id
          + 1 :=
  C9_register "f" 0 [.create 1 10] 2 0 (by decide)

/-- C10 (implicit invariant): after every call sequence from a fresh
contract the packed list `transaction_list.transactions` is exactly the
list of ids ever returned by successful registrations, in order, each id
strictly below `next_id`; and a successful `withdraw` removes the campaign
from the id-to-Campaign map while leaving the packed list and the counter
untouched. -/
theorem C10_issued_id_ledger (n : String) (o : AccountId) (ops : List Op) :
    (exec (Fundraiser.new n o) ops).transaction_list.transactions =
      issued (Fundraiser.new n o) ops ∧
    (∀ i ∈ (exec (Fundraiser.new n o) ops).transaction_list.transactions,
      i < (exec (Fundraiser.new n o) ops).transaction_list.next_id) ∧
    ∀ (s : Fundraiser) (c : AccountId) (b : Balance) (tr : Bool)
      (id : FundingId),
      (s.withdraw c b tr id).isOk = true →
      (step s (.withdrawOp c b tr id)).transactions id = none ∧
      (step s (.withdrawOp c b tr id)).transaction_list =
        s.transaction_list := by
  refine ⟨?_, (inv_exec ops _ (inv_new n o)).mem_lt, ?_⟩
  · rw [exec_packed_list]
    rfl
  · intro s c b tr id h
    cases hw : s.withdraw c b tr id with
    | error e => rw [hw] at h; simp [Except.isOk, Except.toBool] at h
    | ok t =>
      rw [step_withdraw_ok hw]
      obtain ⟨_, _, _, _, hlist, htx, _⟩ := Fundraiser.withdraw_ok_shape hw
      exact ⟨by rw [htx]; simp, hlist⟩

/-- C10 witness: the theorem applied to a register–contribute–withdraw
trace; the packed list keeps the withdrawn id 0 while the campaign map
drops it. -/
theorem C10_witness :
    (exec (Fundraiser.new "f" 0)
      [.create 1 10, .fundOp 2 10 0,
        .withdrawOp 1 10 true 0]).transaction_list.transactions =
      issued (Fundraiser.new "f" 0)
        [.create 1 10, .fundOp 2 10 0, .withdrawOp 1 10 true 0] ∧
    (step (exec (Fundraiser.new "f" 0) [.create 1 10, .fundOp 2 10 0])
      (.withdrawOp 1 10 true 0)).transactions 0 = none ∧
    (step (exec (Fundraiser.new "f" 0) [.create 1 10, .fundOp 2 10 0])
      (.withdrawOp 1 10 true 0)).transaction_list =
      (exec (Fundraiser.new "f" 0)
        [.create 1 10, .fundOp 2 10 0]).transaction_list := by
  obtain ⟨h1, h2, h3⟩ := C10_issued_id_ledger "f" 0
    [.create 1 10, .fundOp 2 10 0, .withdrawOp 1 10 true 0]
  obtain ⟨h4, h5⟩ := h3 (exec (Fundraiser.new "f" 0)
    [.create 1 10, .fundOp 2 10 0]) 1 10 true 0 (by decide)
  exact ⟨h1, h4, h5⟩
